import Mathlib

/-!
# Structure modifiers of pybinding (`cppcore/include/system/StructureModifiers.hpp`)
# and the `DenseURef` to NumPy converter (`src/wrapper/converters/eigen3.hpp`)

A shallow embedding of the two headers.

* C++ overload sets become one Lean definition per overload; the overload that C++
  selects for a payload type `T` is recorded in an instance of `Overloads T`.
* `void f(M const&, X&)` becomes a function `Exec X → Outcome X`: the referenced
  structure is threaded through, together with a log of the user callbacks that were
  invoked, and a thrown exception is an `Except.error`.
* `std::function` may be empty, hence `Option`.
* `double` coordinates and energies are rationals; no definition below does arithmetic
  on them.
-/

namespace cpb

/-! ## Scalars and arrays -/

/-- Cartesian coordinate of one site (one entry of a `CartesianArray`). -/
structure Cartesian where
  x : Rat
  y : Rat
  z : Rat
  deriving DecidableEq

/-- The type `std::complex<double>` of a hopping energy. -/
structure ComplexD where
  re : Rat
  im : Rat
  deriving DecidableEq

/-- Failures, after the taxonomy of the spec (section 7) and `std::bad_function_call`. -/
inductive Error where
  | configuration (what : String)
  | callback_contract (what : String)
  | bad_function_call
  deriving DecidableEq

/-- One invocation of a user-implemented callback, as recorded in the call log. -/
inductive Invocation where
  | site_state_apply (sublattice : String)
  | position_apply (sublattice : String)
  | generator_make (name : String)
  deriving DecidableEq

/-- An execution state: the structure passed by reference and the callbacks invoked so far
(oldest first). -/
structure Exec (α : Type) where
  target : α
  calls : List Invocation

/-- Result of a `void` function that may throw. -/
abbrev Outcome (α : Type) := Except Error (Exec α)

/-! ## The modifier classes (lines 18-71 of the header) -/

/-- The `SiteStateModifier::Function`: the mutable `state` view is returned as the result. -/
abbrev SiteStateModifier.Function := List Bool → List Cartesian → String → List Bool

/-- Modify the state (valid or invalid) of lattice sites. -/
structure SiteStateModifier where
  apply : Option SiteStateModifier.Function
  min_neighbors : Int

/-- The constructor `SiteStateModifier(Function const& apply, int min_neighbors)`: both
members are initialised from the arguments and the body is empty, so the only outcome is
`Except.ok`. The C++ `int` is an integer here: it is stored and compared, never computed
with. -/
def SiteStateModifier.new (apply : Option SiteStateModifier.Function) (min_neighbors : Int) :
    Except Error SiteStateModifier :=
  Except.ok { apply := apply, min_neighbors := min_neighbors }

/-- The constructor with the default argument `min_neighbors = 0`. -/
def SiteStateModifier.new_default (apply : Option SiteStateModifier.Function) :
    Except Error SiteStateModifier :=
  SiteStateModifier.new apply 0

/-- The `PositionModifier::Function`: the mutable `position` view is returned as the result. -/
abbrev PositionModifier.Function := List Cartesian → String → List Cartesian

/-- Modify the position of lattice sites. -/
structure PositionModifier where
  apply : Option PositionModifier.Function

/-- Helper class for passing sublattice information. -/
structure SubIdRef where
  ids : List Int
  name_map : List (String × Int)

/-- Site index pairs which should form new hoppings (`HoppingGenerator::Result`, whose
members `from` and `to` are reserved words here). -/
structure HoppingGenerator.Result where
  from_ : List Int
  to_ : List Int

/-- The `HoppingGenerator::Function`. -/
abbrev HoppingGenerator.Function := List Cartesian → SubIdRef → HoppingGenerator.Result

/-- Introduces a new hopping family via a list of index pairs. -/
structure HoppingGenerator where
  name : String
  energy : ComplexD
  make : Option HoppingGenerator.Function

/-- The conversion `explicit operator bool() const  { return static_cast<bool>(make); }`. -/
def HoppingGenerator.toBool (g : HoppingGenerator) : Bool :=
  g.make.isSome

/-! ## The two structures (only forward-declared in the header) -/

/-- Modelled from the spec: the class `Foundation` (the candidate structure), of which the
header has only the forward declaration. Three index-aligned parallel arrays (position,
validity, sublattice id), the name to id table of the sublattices, and the structure's
connectivity as supplied by the neighbour search: the neighbouring site indices of a site. -/
structure Foundation where
  positions : List Cartesian
  valid : List Bool
  sublattice : List Int
  sub_name_map : List (String × Int)
  neighbors : Nat → List Nat

/-- Modelled from the spec: the struct `System` (the finalized structure), of which the
header has only the forward declaration. The surviving sites, whether the model allows
on-site terms, and the bond table: bond family to index pairs, bond family to weight. -/
structure System where
  positions : List Cartesian
  sublattice : List Int
  sub_name_map : List (String × Int)
  allows_onsite : Bool
  bond_pairs : List (String × List (Int × Int))
  bond_energy : List (String × ComplexD)

/-! ## Views restricted to one sublattice -/

/-- Indices of the sites whose sublattice id is `id`, ascending. -/
def sites_of (sublattice : List Int) (id : Int) : List Nat :=
  (List.range sublattice.length).filter (fun i => sublattice.getD i 0 == id)

/-- Read the entries of `xs` at the indices `idx`. -/
def gather {α : Type} (d : α) (idx : List Nat) (xs : List α) : List α :=
  idx.map (fun i => xs.getD i d)

/-- Write `vals` back to `xs` at the indices `idx`, entry by entry. -/
def scatter {α : Type} (idx : List Nat) (vals : List α) (xs : List α) : List α :=
  (idx.zip vals).foldl (fun acc p => acc.set p.1 p.2) xs

/-! ## Neighbour-count pruning (spec, section 4.1, steps 2 and 3) -/

/-- Modelled from the spec: the count of currently-valid neighbouring sites of site `i`. -/
def valid_neighbor_count (neighbors : Nat → List Nat) (valid : List Bool) (i : Nat) : Nat :=
  (neighbors i).countP (fun j => valid.getD j false)

/-- Modelled from the spec: one full pass of step 2. The counts are computed on the state
before the pass; every site whose valid-neighbour count is strictly less than
`min_neighbors` is marked invalid. -/
def pruning_pass (neighbors : Nat → List Nat) (min_neighbors : Int) (valid : List Bool) :
    List Bool :=
  List.zipWith
    (fun v i => if (valid_neighbor_count neighbors valid i : Int) < min_neighbors then false else v)
    valid (List.range valid.length)

/-- Modelled from the spec: step 3, repeat the pass until one full pass invalidates no
additional site; the number of remaining passes is `fuel`. -/
def pruning_loop (neighbors : Nat → List Nat) (min_neighbors : Int) :
    Nat → List Bool → List Bool
  | 0, valid => valid
  | fuel + 1, valid =>
    let next := pruning_pass neighbors min_neighbors valid
    if next = valid then valid else pruning_loop neighbors min_neighbors fuel next

/-- Modelled from the spec: neighbour-count pruning of a candidate structure, iterated to a
fixed point and bounded by the number of sites (section 7, the non-termination guard). Only
the `valid` array is written. -/
def neighbor_count_pruning (f : Foundation) (min_neighbors : Int) : Foundation :=
  { f with valid := pruning_loop f.neighbors min_neighbors f.valid.length f.valid }

/-! ## The non-template overloads (declared on lines 74, 75 and 78, defined elsewhere) -/

/-- Modelled from the spec: the iteration "once per sublattice", in the order of the name to
id table; an exception aborts the pass and nothing is rolled back. -/
def for_each_sublattice (step : Exec Foundation → String × Int → Outcome Foundation) :
    List (String × Int) → Exec Foundation → Outcome Foundation
  | [], w => Except.ok w
  | entry :: rest, w =>
    match step w entry with
    | Except.error e => Except.error e
    | Except.ok w1 => for_each_sublattice step rest w1

/-- Modelled from the spec: step 1 of section 4.1 for one sublattice. The callback gets the
state and position views of the sites of that sublattice and the sublattice's name; the
state view is written back. Calling an empty `std::function` throws. -/
def site_state_step (m : SiteStateModifier) (w : Exec Foundation) (entry : String × Int) :
    Outcome Foundation :=
  match m.apply with
  | none => Except.error Error.bad_function_call
  | some callback =>
    let idx := sites_of w.target.sublattice entry.2
    let state := callback (gather false idx w.target.valid)
      (gather ⟨0, 0, 0⟩ idx w.target.positions) entry.1
    Except.ok
      { target := { w.target with valid := scatter idx state w.target.valid }
        calls := w.calls ++ [Invocation.site_state_apply entry.1] }

/-- Modelled from the spec: `void apply(SiteStateModifier const& m, Foundation& f)`, section
4.1. The callback is invoked once per sublattice, then neighbour-count pruning runs to a
fixed point; `min_neighbors == 0` skips pruning entirely. -/
def apply_SiteStateModifier_Foundation (m : SiteStateModifier) (w : Exec Foundation) :
    Outcome Foundation :=
  match for_each_sublattice (site_state_step m) w.target.sub_name_map w with
  | Except.error e => Except.error e
  | Except.ok w1 =>
    if m.min_neighbors = 0 then Except.ok w1
    else Except.ok { w1 with target := neighbor_count_pruning w1.target m.min_neighbors }

/-- Modelled from the spec: section 4.2 for one sublattice. The callback may rewrite the
coordinates of the view; changing the array length is a callback contract violation. -/
def position_step (m : PositionModifier) (w : Exec Foundation) (entry : String × Int) :
    Outcome Foundation :=
  match m.apply with
  | none => Except.error Error.bad_function_call
  | some callback =>
    let idx := sites_of w.target.sublattice entry.2
    let view := gather ⟨0, 0, 0⟩ idx w.target.positions
    let moved := callback view entry.1
    if moved.length = view.length then
      Except.ok
        { target := { w.target with positions := scatter idx moved w.target.positions }
          calls := w.calls ++ [Invocation.position_apply entry.1] }
    else Except.error (Error.callback_contract "position array length changed")

/-- Modelled from the spec: `void apply(PositionModifier const& m, Foundation& f)`, section
4.2. The callback is invoked once per sublattice; no pruning follows. -/
def apply_PositionModifier_Foundation (m : PositionModifier) (w : Exec Foundation) :
    Outcome Foundation :=
  for_each_sublattice (position_step m) w.target.sub_name_map w

/-- Modelled from the spec: `void apply(HoppingGenerator const& g, System& s)`, section 4.3.
Invoke `make`, validate the returned index arrays, register the new bond family under
`name`. A generator with no callback is inert. -/
def apply_HoppingGenerator_System (g : HoppingGenerator) (w : Exec System) : Outcome System :=
  match g.make with
  | none => Except.ok w
  | some make =>
    let r := make w.target.positions
      { ids := w.target.sublattice, name_map := w.target.sub_name_map }
    let n : Int := w.target.positions.length
    if r.from_.length ≠ r.to_.length then
      Except.error (Error.callback_contract "from and to differ in length")
    else if ¬ (r.from_ ++ r.to_).all (fun i => decide (0 ≤ i ∧ i < n)) then
      Except.error (Error.callback_contract "site index out of range")
    else if ¬ w.target.allows_onsite ∧ (r.from_.zip r.to_).any (fun p => p.1 == p.2) then
      Except.error (Error.callback_contract "self-pair")
    else if (w.target.bond_pairs.map Prod.fst).contains g.name then
      Except.error (Error.configuration "bond family already exists")
    else
      Except.ok
        { target :=
            { w.target with
              bond_pairs := w.target.bond_pairs ++ [(g.name, r.from_.zip r.to_)]
              bond_energy := w.target.bond_energy ++ [(g.name, g.energy)] }
          calls := w.calls ++ [Invocation.generator_make g.name] }

/-! ## The templates (lines 73, 77, 80 and 83 of the header) -/

/-- The template `template<class M> void apply(M const&, Foundation&)` with the empty body. -/
def apply_Foundation_template {M : Type} (_m : M) (w : Exec Foundation) : Outcome Foundation :=
  Except.ok w

/-- The template `template<class M> void apply(M const&, System&)` with the empty body. -/
def apply_System_template {M : Type} (_m : M) (w : Exec System) : Outcome System :=
  Except.ok w

/-- The template `template<class M> constexpr bool requires_system(M const&)`. -/
def requires_system_template {M : Type} (_m : M) : Bool := false

/-- The overload `constexpr bool requires_system(HoppingGenerator const&)`. -/
def requires_system_HoppingGenerator (_g : HoppingGenerator) : Bool := true

/-- The template `template<class M> constexpr bool is_generator(M const&)`. -/
def is_generator_template {M : Type} (_m : M) : Bool := false

/-- The overload `constexpr bool is_generator(HoppingGenerator const&)`. -/
def is_generator_HoppingGenerator (_g : HoppingGenerator) : Bool := true

/-! ## Overload resolution and the type-erased `StructureModifier` -/

/-- The four unqualified calls made by `Storage<T>` on its `data`, resolved for a payload
type `T`. A non-template function whose parameter is exactly `T const&` is preferred to the
template; where no such function exists the template is the only viable candidate (no
implicit conversion leads from one modifier class to another). -/
class Overloads (T : Type) where
  apply_Foundation : T → Exec Foundation → Outcome Foundation
  apply_System : T → Exec System → Outcome System
  requires_system : T → Bool
  is_generator : T → Bool

instance : Overloads SiteStateModifier where
  apply_Foundation := apply_SiteStateModifier_Foundation
  apply_System := apply_System_template
  requires_system := requires_system_template
  is_generator := is_generator_template

instance : Overloads PositionModifier where
  apply_Foundation := apply_PositionModifier_Foundation
  apply_System := apply_System_template
  requires_system := requires_system_template
  is_generator := is_generator_template

instance : Overloads HoppingGenerator where
  apply_Foundation := apply_Foundation_template
  apply_System := apply_HoppingGenerator_System
  requires_system := requires_system_HoppingGenerator
  is_generator := is_generator_HoppingGenerator

/-- The private `StructureModifier::Interface`: the four pure virtual functions. -/
structure StructureModifier.Interface where
  v_apply_Foundation : Exec Foundation → Outcome Foundation
  v_apply_System : Exec System → Outcome System
  v_requires_system : Unit → Bool
  v_is_generator : Unit → Bool

/-- The private `StructureModifier::Storage<T>`: each override forwards to the overload
selected for `data`. -/
def StructureModifier.Storage {T : Type} [Overloads T] (data : T) :
    StructureModifier.Interface where
  v_apply_Foundation := fun f => Overloads.apply_Foundation data f
  v_apply_System := fun s => Overloads.apply_System data s
  v_requires_system := fun _ => Overloads.requires_system data
  v_is_generator := fun _ => Overloads.is_generator data

/-- Polymorphic storage for system/foundation modifiers. -/
structure StructureModifier where
  impl : StructureModifier.Interface

/-- The constructor `template<class T> StructureModifier(T x)`. -/
def StructureModifier.new {T : Type} [Overloads T] (x : T) : StructureModifier :=
  { impl := StructureModifier.Storage x }

/-- The friend `void apply(StructureModifier const& x, Foundation& f)`. -/
def StructureModifier.apply_Foundation (x : StructureModifier) (f : Exec Foundation) :
    Outcome Foundation :=
  x.impl.v_apply_Foundation f

/-- The friend `void apply(StructureModifier const& x, System& s)`. -/
def StructureModifier.apply_System (x : StructureModifier) (s : Exec System) : Outcome System :=
  x.impl.v_apply_System s

/-- The friend `bool requires_system(StructureModifier const& x)`. -/
def StructureModifier.requires_system (x : StructureModifier) : Bool :=
  x.impl.v_requires_system ()

/-- The friend `bool is_generator(StructureModifier const& x)`. -/
def StructureModifier.is_generator (x : StructureModifier) : Bool :=
  x.impl.v_is_generator ()

/-- A payload of one of the three modifier kinds of the header. -/
inductive Payload where
  | site_state (m : SiteStateModifier)
  | position (m : PositionModifier)
  | hopping_generator (g : HoppingGenerator)

/-- Whether the payload is a `HoppingGenerator`. -/
def Payload.isHoppingGenerator : Payload → Bool
  | Payload.hopping_generator _ => true
  | _ => false

/-- The `StructureModifier` built from a payload. -/
def StructureModifier.of : Payload → StructureModifier
  | Payload.site_state m => StructureModifier.new m
  | Payload.position m => StructureModifier.new m
  | Payload.hopping_generator g => StructureModifier.new g

end cpb

/-! ## The `DenseURef` to NumPy converter (`eigen3.hpp`, lines 35-72) -/

/-- The scalar tag of a `DenseURef`, declared in `support/uref.hpp`: the ten enumerators
named by the `switch`, and `other` for every enumerator that reaches `default`. -/
inductive ScalarType where
  | f | cf | d | cd | i8 | i16 | i32 | u8 | u16 | u32 | other
  deriving DecidableEq

/-- The NumPy type numbers returned by the `switch`. -/
inductive NpyType where
  | NPY_FLOAT | NPY_CFLOAT | NPY_DOUBLE | NPY_CDOUBLE | NPY_INT8 | NPY_INT16 | NPY_INT32
  | NPY_UINT8 | NPY_UINT16 | NPY_UINT32 | NPY_VOID
  deriving DecidableEq

/-- The two array flag sets used by the converter. -/
inductive NpyFlags where
  | NPY_ARRAY_CARRAY | NPY_ARRAY_FARRAY
  deriving DecidableEq

/-- The members of `DenseURef` (declared in `support/uref.hpp`) that `convert` reads; the
`data` pointer is passed through untouched and is left out. -/
structure DenseURef where
  type : ScalarType
  is_row_major : Bool
  rows : Int
  cols : Int
  deriving DecidableEq

/-- The arguments `convert` hands to `PyArray_New`: the array that NumPy builds over `data`. -/
structure NdArray where
  ndim : Nat
  shape : List Int
  type : NpyType
  flags : NpyFlags
  deriving DecidableEq

/-- The function `denseuref_to_python::convert`. -/
def denseuref_to_python.convert (u : DenseURef) : NdArray :=
  let ndim : Nat := if u.rows = 1 ∨ u.cols = 1 then 1 else 2
  let shape : List Int :=
    if ndim = 1 then [if u.is_row_major then u.cols else u.rows]
    else [u.rows, u.cols]
  let type : NpyType :=
    match u.type with
    | ScalarType.f => NpyType.NPY_FLOAT
    | ScalarType.cf => NpyType.NPY_CFLOAT
    | ScalarType.d => NpyType.NPY_DOUBLE
    | ScalarType.cd => NpyType.NPY_CDOUBLE
    | ScalarType.i8 => NpyType.NPY_INT8
    | ScalarType.i16 => NpyType.NPY_INT16
    | ScalarType.i32 => NpyType.NPY_INT32
    | ScalarType.u8 => NpyType.NPY_UINT8
    | ScalarType.u16 => NpyType.NPY_UINT16
    | ScalarType.u32 => NpyType.NPY_UINT32
    | ScalarType.other => NpyType.NPY_VOID
  let flags : NpyFlags :=
    if u.is_row_major then NpyFlags.NPY_ARRAY_CARRAY else NpyFlags.NPY_ARRAY_FARRAY
  { ndim := ndim, shape := shape, type := type, flags := flags }

/-- Number of elements of an array of the given shape. -/
def NdArray.size (a : NdArray) : Int :=
  a.shape.prod

/-! ## Scenario data -/

namespace cpb

/-- A callback that invalidates nothing: the state view is left as it is. -/
def keep_all : SiteStateModifier.Function :=
  fun state _ _ => state

end cpb

/-! ## Theorems -/

namespace cpb

/-- A pointwise deflationary `zipWith` cannot raise the number of `true` entries, and lowers
it whenever it changes the list. -/
theorem zipWith_deflate_count {β : Type} (g : Bool → β → Bool)
    (hg : ∀ v b, g v b = true → v = true) :
    ∀ (v : List Bool) (l : List β), l.length = v.length →
      (List.zipWith g v l).count true ≤ v.count true ∧
      (List.zipWith g v l ≠ v → (List.zipWith g v l).count true < v.count true) := by
  intro v
  induction v with
  | nil =>
    intro l _
    simp
  | cons a v ih =>
    intro l hl
    cases l with
    | nil => simp at hl
    | cons b l =>
      have hl1 : l.length = v.length := by simpa using hl
      obtain ⟨h1, h2⟩ := ih l hl1
      simp only [List.zipWith_cons_cons, List.count_cons]
      by_cases hab : g a b = a
      · rw [hab]
        refine ⟨by omega, ?_⟩
        intro hne
        have : List.zipWith g v l ≠ v := by
          intro h
          apply hne
          rw [h]
        have := h2 this
        omega
      · have ha : a = true := by
          cases a with
          | true => rfl
          | false =>
            exfalso
            apply hab
            cases hgab : g false b with
            | false => rfl
            | true => exact (hg _ _ hgab).symm
        have hgf : g a b = false := by
          cases hgab : g a b with
          | false => rfl
          | true => rw [ha] at hab; rw [ha] at hgab; exact absurd hgab hab
        rw [hgf, ha]
        simp
        omega

/-- One pruning pass only removes valid sites, and removes at least one when it changes the
validity array. -/
theorem pruning_pass_count (neighbors : Nat → List Nat) (k : Int) (valid : List Bool) :
    (pruning_pass neighbors k valid).count true ≤ valid.count true ∧
    (pruning_pass neighbors k valid ≠ valid →
      (pruning_pass neighbors k valid).count true < valid.count true) := by
  unfold pruning_pass
  apply zipWith_deflate_count
  · intro v b h
    split at h
    · simp at h
    · exact h
  · simp

/-- With at least as much fuel as there are valid sites, the loop ends in a state that one
more pass leaves unchanged. -/
theorem pruning_loop_fixed (neighbors : Nat → List Nat) (k : Int) :
    ∀ (fuel : Nat) (valid : List Bool), valid.count true ≤ fuel →
      pruning_pass neighbors k (pruning_loop neighbors k fuel valid) =
        pruning_loop neighbors k fuel valid := by
  intro fuel
  induction fuel with
  | zero =>
    intro valid h
    simp only [pruning_loop]
    by_contra hne
    have := (pruning_pass_count neighbors k valid).2 hne
    omega
  | succ n ih =>
    intro valid h
    simp only [pruning_loop]
    split
    · assumption
    · rename_i hne
      apply ih
      have := (pruning_pass_count neighbors k valid).2 hne
      omega

/-- On a state that a pass leaves unchanged the loop returns that state, whatever the fuel. -/
theorem pruning_loop_of_fixed (neighbors : Nat → List Nat) (k : Int) (fuel : Nat)
    (valid : List Bool) (h : pruning_pass neighbors k valid = valid) :
    pruning_loop neighbors k fuel valid = valid := by
  cases fuel with
  | zero => rfl
  | succ n => simp [pruning_loop, h]

/-- The result of neighbour-count pruning is a fixed point of the pass: the bound by the
number of sites is enough fuel. -/
theorem neighbor_count_pruning_fixed (f : Foundation) (k : Int) :
    pruning_pass f.neighbors k (neighbor_count_pruning f k).valid =
      (neighbor_count_pruning f k).valid := by
  apply pruning_loop_fixed
  exact List.count_le_length _ _

/-- When `apply` for a HoppingGenerator on a System returns normally and `make` is not empty,
the call log has grown by exactly the invocation of `make`: the log observes the callback. -/
theorem apply_HoppingGenerator_System_logs (g : HoppingGenerator) (w w1 : Exec System)
    (make : HoppingGenerator.Function) (hmake : g.make = some make)
    (h : apply_HoppingGenerator_System g w = Except.ok w1) :
    w1.calls = w.calls ++ [Invocation.generator_make g.name] := by
  unfold apply_HoppingGenerator_System at h
  rw [hmake] at h
  simp only at h
  split_ifs at h
  cases h
  rfl

/-- C1: for a StructureModifier built from a payload, `requires_system` is true if the
payload is a HoppingGenerator and false if it is a SiteStateModifier or a PositionModifier. -/
theorem requires_system_of_payload :
    (∀ g : HoppingGenerator, (StructureModifier.new g).requires_system = true) ∧
    (∀ m : SiteStateModifier, (StructureModifier.new m).requires_system = false) ∧
    (∀ m : PositionModifier, (StructureModifier.new m).requires_system = false) :=
  ⟨fun _ => rfl, fun _ => rfl, fun _ => rfl⟩

/-- C2: for a StructureModifier built from a payload `x`, `is_generator` is true if and only
if `x` is a HoppingGenerator; it is false for SiteStateModifier and PositionModifier
payloads. -/
theorem is_generator_iff_hopping_generator (x : Payload) :
    ((StructureModifier.of x).is_generator = true ↔ x.isHoppingGenerator = true) ∧
    (∀ m : SiteStateModifier, (StructureModifier.of (Payload.site_state m)).is_generator = false) ∧
    (∀ m : PositionModifier, (StructureModifier.of (Payload.position m)).is_generator = false) := by
  refine ⟨?_, fun _ => rfl, fun _ => rfl⟩
  cases x with
  | site_state m =>
    show (false = true) ↔ (false = true)
    exact Iff.rfl
  | position m =>
    show (false = true) ↔ (false = true)
    exact Iff.rfl
  | hopping_generator g =>
    show (true = true) ↔ (true = true)
    exact Iff.rfl

/-- C3: applying a StructureModifier whose payload is a HoppingGenerator to a Foundation is a
no-op: it returns normally, the Foundation is unchanged and the call log is unchanged, so
the generator's `make` callback is not invoked. -/
theorem apply_hopping_generator_Foundation_noop (g : HoppingGenerator) (w : Exec Foundation) :
    (StructureModifier.new g).apply_Foundation w =
      Except.ok { target := w.target, calls := w.calls } :=
  rfl

/-- C4: applying a StructureModifier whose payload is a SiteStateModifier or a
PositionModifier to a System is a no-op: it returns normally with the System (sites and bond
table) and the call log unchanged, so the payload's `apply` callback is not invoked. -/
theorem apply_stage1_System_noop (w : Exec System) :
    (∀ m : SiteStateModifier, (StructureModifier.new m).apply_System w =
      Except.ok { target := w.target, calls := w.calls }) ∧
    (∀ m : PositionModifier, (StructureModifier.new m).apply_System w =
      Except.ok { target := w.target, calls := w.calls }) :=
  ⟨fun _ => rfl, fun _ => rfl⟩

/-- C5, as stated, fails: constructing a SiteStateModifier with `min_neighbors = -1` succeeds
and stores `-1`; no error is raised. -/
theorem construct_negative_min_neighbors_succeeds :
    (∃ m, SiteStateModifier.new (some keep_all) (-1) = Except.ok m ∧ m.min_neighbors = -1) ∧
    ¬ ∃ e, SiteStateModifier.new (some keep_all) (-1) = Except.error e := by
  refine ⟨⟨_, rfl, rfl⟩, ?_⟩
  rintro ⟨e, h⟩
  cases h

/-- C5, amended: constructing a SiteStateModifier never fails; for every callback and every
integer `min_neighbors`, negative ones included, the object holds exactly the two
arguments. -/
theorem construct_site_state_modifier_total (apply : Option SiteStateModifier.Function)
    (min_neighbors : Int) :
    SiteStateModifier.new apply min_neighbors =
      Except.ok { apply := apply, min_neighbors := min_neighbors } :=
  rfl

/-- C6: a HoppingGenerator is falsy exactly when its `make` callback is empty, and truthy for
every generator constructed with a non-empty `make`, whatever its name and energy. -/
theorem hopping_generator_bool :
    (∀ g : HoppingGenerator, g.toBool = false ↔ g.make = none) ∧
    (∀ (name : String) (energy : ComplexD) (make : HoppingGenerator.Function),
      (HoppingGenerator.mk name energy (some make)).toBool = true) := by
  refine ⟨?_, fun _ _ _ => rfl⟩
  intro g
  unfold HoppingGenerator.toBool
  cases g.make <;> simp

/-- C8: neighbour-count pruning is idempotent. For every candidate structure, every
connectivity and every `min_neighbors` (so for every `min_neighbors >= 0`), running the
pruning a second time on the already-pruned structure invalidates no additional site: the
validity array, and with it the whole structure, is unchanged. -/
theorem neighbor_count_pruning_idempotent (f : Foundation) (min_neighbors : Int) :
    (neighbor_count_pruning (neighbor_count_pruning f min_neighbors) min_neighbors).valid =
      (neighbor_count_pruning f min_neighbors).valid ∧
    neighbor_count_pruning (neighbor_count_pruning f min_neighbors) min_neighbors =
      neighbor_count_pruning f min_neighbors := by
  have h := neighbor_count_pruning_fixed f min_neighbors
  have key : neighbor_count_pruning (neighbor_count_pruning f min_neighbors) min_neighbors =
      neighbor_count_pruning f min_neighbors := by
    unfold neighbor_count_pruning at h ⊢
    simp only
    rw [pruning_loop_of_fixed _ _ _ _ h]
  exact ⟨congrArg Foundation.valid key, key⟩

/-- C9: type erasure is faithful. For each payload kind the four operations on the
StructureModifier give the result of the overload selected for the payload directly: the
non-template overload for the payload's own kind, the no-op or `false` template otherwise. -/
theorem type_erasure_faithful :
    (∀ (m : SiteStateModifier) (f : Exec Foundation) (s : Exec System),
      (StructureModifier.new m).apply_Foundation f = apply_SiteStateModifier_Foundation m f ∧
      (StructureModifier.new m).apply_System s = apply_System_template m s ∧
      (StructureModifier.new m).requires_system = requires_system_template m ∧
      (StructureModifier.new m).is_generator = is_generator_template m) ∧
    (∀ (m : PositionModifier) (f : Exec Foundation) (s : Exec System),
      (StructureModifier.new m).apply_Foundation f = apply_PositionModifier_Foundation m f ∧
      (StructureModifier.new m).apply_System s = apply_System_template m s ∧
      (StructureModifier.new m).requires_system = requires_system_template m ∧
      (StructureModifier.new m).is_generator = is_generator_template m) ∧
    (∀ (g : HoppingGenerator) (f : Exec Foundation) (s : Exec System),
      (StructureModifier.new g).apply_Foundation f = apply_Foundation_template g f ∧
      (StructureModifier.new g).apply_System s = apply_HoppingGenerator_System g s ∧
      (StructureModifier.new g).requires_system = requires_system_HoppingGenerator g ∧
      (StructureModifier.new g).is_generator = is_generator_HoppingGenerator g) :=
  ⟨fun _ _ _ => ⟨rfl, rfl, rfl, rfl⟩, fun _ _ _ => ⟨rfl, rfl, rfl, rfl⟩,
    fun _ _ _ => ⟨rfl, rfl, rfl, rfl⟩⟩

end cpb

/-- Where the storage order of a vector matches its direction (a row vector is row-major, a
column vector is column-major), and for every reference with more than one row and more
than one column, `convert` preserves the element count. -/
theorem denseuref_convert_size_of_matching_order (u : DenseURef)
    (h : (u.rows = 1 ∧ u.is_row_major = true) ∨ (u.cols = 1 ∧ u.is_row_major = false) ∨
      (u.rows ≠ 1 ∧ u.cols ≠ 1)) :
    (denseuref_to_python.convert u).size = u.rows * u.cols := by
  unfold denseuref_to_python.convert NdArray.size
  rcases h with ⟨h1, h2⟩ | ⟨h1, h2⟩ | ⟨h1, h2⟩
  · simp [h1, h2]
  · simp [h1, h2]
  · simp [h1, h2]

/-- C10 fails on a row-major reference with five rows and one column: `convert` takes the
one-dimensional branch and reads the length from `cols`, so the NumPy shape is `[1]` and its
product is 1, not `rows * cols = 5`. -/
theorem denseuref_convert_drops_elements :
    (denseuref_to_python.convert
      { type := ScalarType.d, is_row_major := true, rows := 5, cols := 1 }).shape = [1] ∧
    (denseuref_to_python.convert
      { type := ScalarType.d, is_row_major := true, rows := 5, cols := 1 }).size ≠ 5 * 1 := by
  decide
